import Mathlib

/-!
Shallow embedding of the Void settings store
(`src/vs/platform/void/common/voidConfigService.ts`, the `VoidSettingsService`
part) and of the React service bridge
(`src/vs/workbench/contrib/void/browser/react/src/util/services.tsx`).

Provider names and feature-flag names are strings; the set of provider names
(`providerNames` in the missing `voidSettingsTypes.ts`) is passed as an
explicit list parameter.  The three feature names are enumerated in the source
(`{ 'Ctrl+L': null, 'Ctrl+K': null, 'Autocomplete': null }`), so `FeatureName`
is a three-constructor inductive.  Asynchronous persistence
(`_storeState`: encrypt + store) is modelled as an explicit
`persist : VoidSettingsState → Except String Unit` parameter; each mutation
returns a `MutOutcome` recording the final in-memory state, the snapshots
handed to `persist`, the change events fired, and the error if `persist`
failed (in the source, a rejected `_storeState` promise aborts the method
after `this.state` was already assigned and before the event fires).
-/

abbrev ProviderName := String

abbrev FeatureFlagName := String

inductive FeatureName
  | ctrlL
  | ctrlK
  | autocomplete
deriving DecidableEq, Repr

/-- The `featureNames` list of `voidSettingsTypes.ts`, in the order the three
features appear in the source's default state literal. -/
def featureNames : List FeatureName :=
  [FeatureName.ctrlL, FeatureName.ctrlK, FeatureName.autocomplete]

structure ModelSelection where
  providerName : ProviderName
  modelName : String
deriving DecidableEq, Repr

/-- Modelled from the spec: `modelSelectionsEqual` lives in
`voidSettingsTypes.ts`, which is not part of this repository fragment.  The
spec's phrase "selection no longer present in the option list" forces it to be
componentwise equality of the two selections. -/
def modelSelectionsEqual (s1 s2 : ModelSelection) : Bool :=
  s1.providerName == s2.providerName && s1.modelName == s2.modelName

/-- `VoidModelInfo` of `voidSettingsTypes.ts`: the spec lists
`{modelName, isDefault, isHidden}`; `isAutodetected` is the optional mark the
spec says `setDefaultModels` adds to rebuilt default entries. -/
structure VoidModelInfo where
  modelName : String
  isDefault : Bool
  isHidden : Bool
  isAutodetected : Option Bool := none
deriving DecidableEq, Repr

structure ModelOption where
  text : String
  value : ModelSelection
deriving DecidableEq, Repr

/-- One provider's settings: the `_enabled` flag, the ordered model list, and
the remaining string-valued fields (api key, endpoint, ...) as a total map
from setting key to string. -/
structure ProviderSettings where
  _enabled : Bool
  models : List VoidModelInfo
  otherSettings : String → String

/-- A `SettingName` of `voidSettingsTypes.ts`: either one of the two fields
the store treats specially (`models`, `_enabled`) or some other string-valued
field. -/
inductive SettingName
  | models
  | _enabled
  | other (key : String)
deriving DecidableEq, Repr

/-- A type-correct (settingName, newVal) pair, as the TypeScript signature
`newVal : SettingsOfProvider[ProviderName][S]` guarantees. -/
inductive SettingWrite
  | models (ms : List VoidModelInfo)
  | _enabled (b : Bool)
  | other (key : String) (val : String)

def SettingWrite.name : SettingWrite → SettingName
  | SettingWrite.models _ => SettingName.models
  | SettingWrite._enabled _ => SettingName._enabled
  | SettingWrite.other key _ => SettingName.other key

inductive SettingValue
  | models (ms : List VoidModelInfo)
  | _enabled (b : Bool)
  | str (s : String)
deriving DecidableEq

def SettingWrite.value : SettingWrite → SettingValue
  | SettingWrite.models ms => SettingValue.models ms
  | SettingWrite._enabled b => SettingValue._enabled b
  | SettingWrite.other _ val => SettingValue.str val

/-- Reading one field of a provider's settings. -/
def ProviderSettings.getSetting (ps : ProviderSettings) : SettingName → SettingValue
  | SettingName.models => SettingValue.models ps.models
  | SettingName._enabled => SettingValue._enabled ps._enabled
  | SettingName.other key => SettingValue.str (ps.otherSettings key)

/-- The inner spread `{ ...settingsOfProvider[providerName], [settingName]: newVal }`. -/
def ProviderSettings.write (ps : ProviderSettings) : SettingWrite → ProviderSettings
  | SettingWrite.models ms => { ps with models := ms }
  | SettingWrite._enabled b => { ps with _enabled := b }
  | SettingWrite.other key val =>
      { ps with otherSettings := fun k => if k = key then val else ps.otherSettings k }

/-- The record `{ 'Ctrl+L': ..., 'Ctrl+K': ..., 'Autocomplete': ... }`. -/
structure ModelSelectionOfFeature where
  ctrlL : Option ModelSelection
  ctrlK : Option ModelSelection
  autocomplete : Option ModelSelection
deriving DecidableEq, Repr

def ModelSelectionOfFeature.get (m : ModelSelectionOfFeature) : FeatureName → Option ModelSelection
  | FeatureName.ctrlL => m.ctrlL
  | FeatureName.ctrlK => m.ctrlK
  | FeatureName.autocomplete => m.autocomplete

/-- The spread `{ ...modelSelectionOfFeature, [featureName]: newVal }`. -/
def ModelSelectionOfFeature.set (m : ModelSelectionOfFeature) :
    FeatureName → Option ModelSelection → ModelSelectionOfFeature
  | FeatureName.ctrlL, v => { m with ctrlL := v }
  | FeatureName.ctrlK, v => { m with ctrlK := v }
  | FeatureName.autocomplete, v => { m with autocomplete := v }

/-- `VoidSettingsState` of `voidSettingsService.ts`. -/
structure VoidSettingsState where
  settingsOfProvider : ProviderName → ProviderSettings
  modelSelectionOfFeature : ModelSelectionOfFeature
  featureFlagSettings : FeatureFlagName → Bool
  _modelOptions : List ModelOption

/-- The tag carried by `onDidChangeState` (`EventProp` in the source). -/
inductive EventProp
  | settingsOfProvider
  | modelSelectionOfFeature
  | featureFlagSettings
  | all
deriving DecidableEq, Repr

/-- Result of one mutation method: the final in-memory `this.state`, the
snapshots passed to `_storeState`, the events fired, and the persistence
error when `_storeState` rejected. -/
structure MutOutcome where
  state : VoidSettingsState
  persisted : List VoidSettingsState
  events : List EventProp
  error : Option String

/-- The option record pushed by `_computeModelOptions`:
`{ text: `modelName (providerName)`, value: { providerName, modelName } }`. -/
def modelEntry (providerName : ProviderName) (m : VoidModelInfo) : ModelOption :=
  { text := m.modelName ++ " (" ++ providerName ++ ")",
    value := { providerName := providerName, modelName := m.modelName } }

/-- `_computeModelOptions` of `voidSettingsService.ts`: the two nested `for`
loops pushing onto `modelOptions`. -/
def _computeModelOptions (providerNames : List ProviderName)
    (settingsOfProvider : ProviderName → ProviderSettings) : List ModelOption :=
  providerNames.foldl (fun acc providerName =>
    let providerConfig := settingsOfProvider providerName
    if !providerConfig._enabled then acc
    else providerConfig.models.foldl (fun acc2 m =>
      if m.isHidden then acc2
      else acc2 ++ [modelEntry providerName m]) acc) []

/-- The outer spread `{ ...settingsOfProvider, [providerName]: {...} }`. -/
def updateProvider (sop : ProviderName → ProviderSettings) (providerName : ProviderName)
    (w : SettingWrite) : ProviderName → ProviderSettings :=
  fun q => if q = providerName then (sop providerName).write w else sop q

/-- `setModelSelectionOfFeature` of `voidSettingsService.ts`: with
`doNotApplyEffects` the method assigns `this.state` and returns before
persisting or firing. -/
def setModelSelectionOfFeature (persist : VoidSettingsState → Except String Unit)
    (state : VoidSettingsState) (featureName : FeatureName) (newVal : Option ModelSelection)
    (doNotApplyEffects : Bool) : MutOutcome :=
  let newState : VoidSettingsState :=
    { state with modelSelectionOfFeature := state.modelSelectionOfFeature.set featureName newVal }
  if doNotApplyEffects then
    { state := newState, persisted := [], events := [], error := none }
  else
    match persist newState with
    | Except.ok _ =>
        { state := newState, persisted := [newState],
          events := [EventProp.modelSelectionOfFeature], error := none }
    | Except.error e =>
        { state := newState, persisted := [], events := [], error := some e }

/-- The body of the fixup loop of `setSettingOfProvider`: read the feature's
selection from the captured `newModelSelectionOfFeature`, search it in the
recomputed option list (`findIndex` against `modelSelectionsEqual`), and on a
miss write the first option (or `null` for an empty list) through
`setModelSelectionOfFeature` with `doNotApplyEffects`. -/
def selectionFixup (persist : VoidSettingsState → Except String Unit)
    (newModelSelectionOfFeature : ModelSelectionOfFeature) (newModelsList : List ModelOption)
    (st : VoidSettingsState) (featureName : FeatureName) : VoidSettingsState :=
  let currentSelection := newModelSelectionOfFeature.get featureName
  let found :=
    match currentSelection with
    | none => false
    | some sel => newModelsList.any fun m => modelSelectionsEqual m.value sel
  if found then st
  else
    match newModelsList with
    | m :: _ => (setModelSelectionOfFeature persist st featureName (some m.value) true).state
    | [] => (setModelSelectionOfFeature persist st featureName none true).state

/-- `setSettingOfProvider` of `voidSettingsService.ts`: immutable field
update, recomputation of `_modelOptions` when `models` or `_enabled` changed,
the fixup loop over `featureNames` (reading the captured
`newModelSelectionOfFeature`, writing through `setModelSelectionOfFeature`
with `doNotApplyEffects`), then persist and a single `'settingsOfProvider'`
event. -/
def setSettingOfProvider (providerNames : List ProviderName)
    (persist : VoidSettingsState → Except String Unit) (state : VoidSettingsState)
    (providerName : ProviderName) (w : SettingWrite) : MutOutcome :=
  let newModelSelectionOfFeature := state.modelSelectionOfFeature
  let newSettingsOfProvider := updateProvider state.settingsOfProvider providerName w
  let newFeatureFlags := state.featureFlagSettings
  let modelsListChanged := w.name = SettingName.models ∨ w.name = SettingName._enabled
  let newModelsList :=
    if modelsListChanged then _computeModelOptions providerNames newSettingsOfProvider
    else state._modelOptions
  let st1 : VoidSettingsState :=
    { modelSelectionOfFeature := newModelSelectionOfFeature
      settingsOfProvider := newSettingsOfProvider
      featureFlagSettings := newFeatureFlags
      _modelOptions := newModelsList }
  let st2 :=
    if modelsListChanged then
      featureNames.foldl (selectionFixup persist newModelSelectionOfFeature newModelsList) st1
    else st1
  match persist st2 with
  | Except.ok _ =>
      { state := st2, persisted := [st2], events := [EventProp.settingsOfProvider], error := none }
  | Except.error e =>
      { state := st2, persisted := [], events := [], error := some e }

/-- `setFeatureFlag` of `voidSettingsService.ts`. -/
def setFeatureFlag (persist : VoidSettingsState → Except String Unit)
    (state : VoidSettingsState) (flagName : FeatureFlagName) (newVal : Bool) : MutOutcome :=
  let newState : VoidSettingsState :=
    { state with featureFlagSettings := fun k => if k = flagName then newVal else state.featureFlagSettings k }
  match persist newState with
  | Except.ok _ =>
      { state := newState, persisted := [newState],
        events := [EventProp.featureFlagSettings], error := none }
  | Except.error e =>
      { state := newState, persisted := [], events := [], error := some e }

/-- `Array.prototype.findIndex`, with `none` for the source's `-1`. -/
def findIndexOpt (p : α → Bool) : List α → Option Nat
  | [] => none
  | a :: as => if p a then some 0 else (findIndexOpt p as).map (· + 1)

/-- `addModel` of `voidSettingsService.ts`. -/
def addModel (providerNames : List ProviderName)
    (persist : VoidSettingsState → Except String Unit) (state : VoidSettingsState)
    (providerName : ProviderName) (modelName : String) : MutOutcome :=
  let models := (state.settingsOfProvider providerName).models
  match findIndexOpt (fun m => m.modelName == modelName) models with
  | some _ => { state := state, persisted := [], events := [], error := none }
  | none =>
      let newModels := models ++ [{ modelName := modelName, isDefault := false, isHidden := false }]
      setSettingOfProvider providerNames persist state providerName (SettingWrite.models newModels)

/-- `deleteModel` of `voidSettingsService.ts`: the slices
`models.slice(0, delIdx)` and `models.slice(delIdx + 1, Infinity)`, plus the
boolean result. -/
def deleteModel (providerNames : List ProviderName)
    (persist : VoidSettingsState → Except String Unit) (state : VoidSettingsState)
    (providerName : ProviderName) (modelName : String) : Bool × MutOutcome :=
  let models := (state.settingsOfProvider providerName).models
  match findIndexOpt (fun m => m.modelName == modelName) models with
  | none => (false, { state := state, persisted := [], events := [], error := none })
  | some delIdx =>
      let newModels := models.take delIdx ++ models.drop (delIdx + 1)
      (true, setSettingOfProvider providerNames persist state providerName (SettingWrite.models newModels))

/-- `toggleModelHidden` of `voidSettingsService.ts`: replace the found entry
by a copy with `isHidden` negated; `models.drop modelIdx` exposes the entry
whose hidden flag is flipped (the index returned by `findIndexOpt` is always
in range, so the `[]` branch is dead). -/
def toggleModelHidden (providerNames : List ProviderName)
    (persist : VoidSettingsState → Except String Unit) (state : VoidSettingsState)
    (providerName : ProviderName) (modelName : String) : MutOutcome :=
  let models := (state.settingsOfProvider providerName).models
  match findIndexOpt (fun m => m.modelName == modelName) models with
  | none => { state := state, persisted := [], events := [], error := none }
  | some modelIdx =>
      match models.drop modelIdx with
      | [] => { state := state, persisted := [], events := [], error := none }
      | mi :: rest =>
          let newModels := models.take modelIdx ++ ({ mi with isHidden := !mi.isHidden } :: rest)
          setSettingOfProvider providerNames persist state providerName (SettingWrite.models newModels)

/-- Modelled from the spec: `modelInfoOfDefaultNames` is defined in
`voidSettingsTypes.ts`, which is not part of this repository fragment.  The
spec says `setDefaultModels` "rebuilds the provider's 'default' model entries
from a name list (marking them auto-detected)", so each name becomes a
default, non-hidden, auto-detected entry. -/
def modelInfoOfDefaultNames (newDefaultModelNames : List String) : List VoidModelInfo :=
  newDefaultModelNames.map fun n =>
    { modelName := n, isDefault := true, isHidden := false, isAutodetected := some true }

/-- `setDefaultModels` of `voidSettingsService.ts`: rebuilt defaults first,
then the user's non-default models. -/
def setDefaultModels (providerNames : List ProviderName)
    (persist : VoidSettingsState → Except String Unit) (state : VoidSettingsState)
    (providerName : ProviderName) (newDefaultModelNames : List String) : MutOutcome :=
  let models := (state.settingsOfProvider providerName).models
  let newDefaultModels := modelInfoOfDefaultNames newDefaultModelNames
  let newModels := newDefaultModels ++ models.filter (fun m => !m.isDefault)
  setSettingOfProvider providerNames persist state providerName (SettingWrite.models newModels)

/-- `defaultState` of `voidSettingsService.ts`: deep-cloned defaults (cloning
is the identity on pure values), `null` selection for every feature, and the
computed option list.  `defaultSettingsOfProvider` and
`defaultFeatureFlagSettings` live in the missing `voidSettingsTypes.ts` and
are passed as parameters. -/
def defaultState (providerNames : List ProviderName)
    (defaultSettingsOfProvider : ProviderName → ProviderSettings)
    (defaultFeatureFlagSettings : FeatureFlagName → Bool) : VoidSettingsState :=
  { settingsOfProvider := defaultSettingsOfProvider
    modelSelectionOfFeature := { ctrlL := none, ctrlK := none, autocomplete := none }
    featureFlagSettings := defaultFeatureFlagSettings
    _modelOptions := _computeModelOptions providerNames defaultSettingsOfProvider }

/-- `_readState` of `voidSettingsService.ts`: a falsy stored value (absent or
empty string) yields the default state; otherwise decrypt then parse. -/
def _readState (providerNames : List ProviderName)
    (defaultSettingsOfProvider : ProviderName → ProviderSettings)
    (defaultFeatureFlagSettings : FeatureFlagName → Bool)
    (stored : Option String) (decrypt : String → Except String String)
    (parse : String → Except String VoidSettingsState) : Except String VoidSettingsState :=
  match stored with
  | none => Except.ok (defaultState providerNames defaultSettingsOfProvider defaultFeatureFlagSettings)
  | some encryptedState =>
      if encryptedState = "" then
        Except.ok (defaultState providerNames defaultSettingsOfProvider defaultFeatureFlagSettings)
      else
        match decrypt encryptedState with
        | Except.error e => Except.error e
        | Except.ok stateStr => parse stateStr

/-! Embedding of the React service bridge (`services.tsx`).  The module-level
`let` variables are represented as one record of "module state"; an
uninitialized `let` (read before `_registerServices` assigned it) is `none`.
`useAccessor` throwing is `Except.error`; the state hooks return the cached
value as-is. -/

structure ReactBridge (A St : Type) where
  reactAccessor : Option A
  settingsState : Option St
  wasCalled : Bool

/-- The bridge's module state before `_registerServices` has run:
`reactAccessor_` is `null`, `settingsState` is still uninitialized, and
`wasCalled` is `false`. -/
def initialBridge (A St : Type) : ReactBridge A St :=
  { reactAccessor := none, settingsState := none, wasCalled := false }

/-- `_registerServices` of `services.tsx`: a no-op when `wasCalled` is
already set, otherwise records the accessor and seeds the settings cache from
the settings service. -/
def _registerServices {A St : Type} (b : ReactBridge A St) (accessor : A) (serviceState : St) :
    ReactBridge A St :=
  if b.wasCalled then b
  else { reactAccessor := some accessor, settingsState := some serviceState, wasCalled := true }

/-- `useAccessor` of `services.tsx`: throws when `reactAccessor_` is still
`null`. -/
def useAccessor {A St : Type} (b : ReactBridge A St) : Except String A :=
  match b.reactAccessor with
  | none => Except.error "Void useAccessor was called before _registerServices!"
  | some a => Except.ok a

/-- `useSettingsState` of `services.tsx`: `useState(settingsState)` reads the
cached module variable as-is and never throws. -/
def useSettingsState {A St : Type} (b : ReactBridge A St) : Option St :=
  b.settingsState

/-! Spec-side restatement of the derived option list, and concrete sample
data used to exercise the definitions. -/

/-- The option list as the spec words it: the flattened list, over providers
in order, of the enabled providers' non-hidden models in model order. -/
def modelOptionsSpec (providerNames : List ProviderName)
    (sop : ProviderName → ProviderSettings) : List ModelOption :=
  (providerNames.map fun providerName =>
    let providerConfig := sop providerName
    if providerConfig._enabled then
      (providerConfig.models.filter fun m => !m.isHidden).map (modelEntry providerName)
    else []).flatten

def egProviderNames : List ProviderName := ["openai", "anthropic"]

def egOther : String → String := fun _ => ""

def egSettings : ProviderName → ProviderSettings := fun p =>
  if p = "openai" then
    { _enabled := true
      models := [{ modelName := "modelA", isDefault := true, isHidden := false },
                 { modelName := "modelB", isDefault := true, isHidden := false }]
      otherSettings := egOther }
  else if p = "anthropic" then
    { _enabled := true
      models := [{ modelName := "modelC", isDefault := true, isHidden := false }]
      otherSettings := egOther }
  else { _enabled := false, models := [], otherSettings := egOther }

def egState : VoidSettingsState :=
  { settingsOfProvider := egSettings
    modelSelectionOfFeature :=
      { ctrlL := none
        ctrlK := some { providerName := "openai", modelName := "modelA" }
        autocomplete := none }
    featureFlagSettings := fun _ => false
    _modelOptions := _computeModelOptions egProviderNames egSettings }

def persistOk : VoidSettingsState → Except String Unit := fun _ => Except.ok ()

def persistFail : VoidSettingsState → Except String Unit := fun _ =>
  Except.error "storage unavailable"

/-- What the fixup loop does to one feature's selection: keep it when it is
still present in the recomputed option list, otherwise fall back to the first
option (or `none` when the list is empty). -/
def fixSelection (opts : List ModelOption) (sel : Option ModelSelection) : Option ModelSelection :=
  let found :=
    match sel with
    | none => false
    | some s => opts.any fun m => modelSelectionsEqual m.value s
  if found then sel else opts.head?.map (fun m => m.value)

/-- Model-name uniqueness within one provider's model list. -/
def modelNamesUnique (models : List VoidModelInfo) : Prop :=
  (models.map fun m => m.modelName).Nodup

instance (models : List VoidModelInfo) : Decidable (modelNamesUnique models) := by
  unfold modelNamesUnique
  infer_instance

/-- The C5 invariant: model names unique within every provider's list. -/
def StateUnique (s : VoidSettingsState) : Prop :=
  ∀ q : ProviderName, modelNamesUnique ((s.settingsOfProvider q).models)

theorem MSOF_get_set_self (m : ModelSelectionOfFeature) (f : FeatureName) (v : Option ModelSelection) :
    (m.set f v).get f = v := by
  cases f <;> rfl

theorem MSOF_get_set_of_ne (m : ModelSelectionOfFeature) {f g : FeatureName} (v : Option ModelSelection)
    (h : f ≠ g) : (m.set f v).get g = m.get g := by
  cases f <;> cases g <;> simp_all [ModelSelectionOfFeature.set, ModelSelectionOfFeature.get]

theorem selectionFixup_eq (persist : VoidSettingsState → Except String Unit)
    (orig : ModelSelectionOfFeature) (opts : List ModelOption) (st : VoidSettingsState)
    (f : FeatureName) :
    selectionFixup persist orig opts st f
      = { st with modelSelectionOfFeature :=
            if (match orig.get f with
                | none => false
                | some sel => opts.any fun m => modelSelectionsEqual m.value sel) then
              st.modelSelectionOfFeature
            else st.modelSelectionOfFeature.set f (opts.head?.map fun m => m.value) } := by
  simp only [selectionFixup, setModelSelectionOfFeature]
  cases h : orig.get f <;> cases opts <;> (simp; try (split <;> simp))

theorem setSettingOfProvider_state_changed (providerNames : List ProviderName)
    (persist : VoidSettingsState → Except String Unit) (s : VoidSettingsState)
    (p : ProviderName) (w : SettingWrite)
    (hw : w.name = SettingName.models ∨ w.name = SettingName._enabled) :
    (setSettingOfProvider providerNames persist s p w).state =
      { settingsOfProvider := updateProvider s.settingsOfProvider p w
        modelSelectionOfFeature :=
          { ctrlL := fixSelection (_computeModelOptions providerNames (updateProvider s.settingsOfProvider p w)) s.modelSelectionOfFeature.ctrlL
            ctrlK := fixSelection (_computeModelOptions providerNames (updateProvider s.settingsOfProvider p w)) s.modelSelectionOfFeature.ctrlK
            autocomplete := fixSelection (_computeModelOptions providerNames (updateProvider s.settingsOfProvider p w)) s.modelSelectionOfFeature.autocomplete }
        featureFlagSettings := s.featureFlagSettings
        _modelOptions := _computeModelOptions providerNames (updateProvider s.settingsOfProvider p w) } := by
  simp only [setSettingOfProvider]
  rw [if_pos hw, if_pos hw]
  simp only [featureNames, List.foldl_cons, List.foldl_nil]
  rw [selectionFixup_eq, selectionFixup_eq, selectionFixup_eq]
  rcases s with ⟨sop, ⟨l, k, a⟩, ff, mo⟩
  simp only [ModelSelectionOfFeature.get, ModelSelectionOfFeature.set, fixSelection]
  cases hp : persist _ <;>
    simp only [] <;>
    split_ifs <;>
    simp_all [ModelSelectionOfFeature.set]

theorem models_foldl_eq (providerName : ProviderName) (models : List VoidModelInfo)
    (acc : List ModelOption) :
    models.foldl (fun acc2 m => if m.isHidden then acc2 else acc2 ++ [modelEntry providerName m]) acc
      = acc ++ (models.filter fun m => !m.isHidden).map (modelEntry providerName) := by
  induction models generalizing acc with
  | nil => simp
  | cons m rest ih =>
      by_cases h : m.isHidden <;> simp [h, ih, List.filter_cons]

theorem computeAux (sop : ProviderName → ProviderSettings) (pn : List ProviderName)
    (acc : List ModelOption) :
    pn.foldl (fun acc providerName =>
      let providerConfig := sop providerName
      if !providerConfig._enabled then acc
      else providerConfig.models.foldl (fun acc2 m =>
        if m.isHidden then acc2 else acc2 ++ [modelEntry providerName m]) acc) acc
      = acc ++ modelOptionsSpec pn sop := by
  induction pn generalizing acc with
  | nil => simp [modelOptionsSpec]
  | cons p rest ih =>
      by_cases h : (sop p)._enabled
      · simp only [List.foldl_cons, h]
        rw [show (!(true : Bool)) = false from rfl]
        simp only [if_neg (by simp : ¬ (false = true))]
        rw [models_foldl_eq, ih]
        simp [modelOptionsSpec, h, List.append_assoc]
      · simp only [List.foldl_cons]
        simp only [Bool.not_eq_true] at h
        simp only [h]
        rw [ih]
        simp [modelOptionsSpec, h]

theorem computeModelOptions_eq_spec (pn : List ProviderName)
    (sop : ProviderName → ProviderSettings) :
    _computeModelOptions pn sop = modelOptionsSpec pn sop := by
  have := computeAux sop pn []
  simpa [_computeModelOptions] using this

theorem spec_disable_filter (pn : List ProviderName) (sop : ProviderName → ProviderSettings)
    (p : ProviderName) :
    modelOptionsSpec pn (updateProvider sop p (SettingWrite._enabled false))
      = (modelOptionsSpec pn sop).filter (fun o => !(o.value.providerName == p)) := by
  induction pn with
  | nil => simp [modelOptionsSpec]
  | cons q rest ih =>
      simp only [modelOptionsSpec, List.map_cons, List.flatten_cons, List.filter_append] at *
      rw [ih]
      by_cases hq : q = p
      · subst hq
        simp [updateProvider, ProviderSettings.write]
        intro a he x hx hh hax
        subst hax
        simp [modelEntry]
      · simp only [updateProvider, if_neg hq]
        congr 1
        by_cases he : (sop q)._enabled
        · simp only [he, if_pos]
          rw [eq_comm, List.filter_eq_self]
          intro x hx
          rcases List.mem_map.mp hx with ⟨m, hm, rfl⟩
          simp [modelEntry, hq]
        · simp [he]

theorem write_enabled_restore (ps : ProviderSettings) (h : ps._enabled = true) :
    (ps.write (SettingWrite._enabled false)).write (SettingWrite._enabled true) = ps := by
  cases ps
  simp_all [ProviderSettings.write]

theorem updateProvider_restore (sop : ProviderName → ProviderSettings) (p : ProviderName)
    (h : (sop p)._enabled = true) :
    updateProvider (updateProvider sop p (SettingWrite._enabled false)) p
      (SettingWrite._enabled true) = sop := by
  funext q
  by_cases hq : q = p
  · subst hq
    simp [updateProvider, write_enabled_restore _ h]
  · simp [updateProvider, hq]

theorem setSettingOfProvider_settings (pn : List ProviderName)
    (persist : VoidSettingsState → Except String Unit) (s : VoidSettingsState)
    (p : ProviderName) (w : SettingWrite) :
    (setSettingOfProvider pn persist s p w).state.settingsOfProvider
      = updateProvider s.settingsOfProvider p w := by
  simp only [setSettingOfProvider, featureNames, List.foldl_cons, List.foldl_nil, selectionFixup_eq]
  split_ifs <;> split <;> simp

theorem setSettingOfProvider_featureFlags (pn : List ProviderName)
    (persist : VoidSettingsState → Except String Unit) (s : VoidSettingsState)
    (p : ProviderName) (w : SettingWrite) :
    (setSettingOfProvider pn persist s p w).state.featureFlagSettings
      = s.featureFlagSettings := by
  simp only [setSettingOfProvider, featureNames, List.foldl_cons, List.foldl_nil, selectionFixup_eq]
  split_ifs <;> split <;> simp

theorem setSettingOfProvider_modelOptions (pn : List ProviderName)
    (persist : VoidSettingsState → Except String Unit) (s : VoidSettingsState)
    (p : ProviderName) (w : SettingWrite) :
    (setSettingOfProvider pn persist s p w).state._modelOptions
      = if w.name = SettingName.models ∨ w.name = SettingName._enabled then
          _computeModelOptions pn (updateProvider s.settingsOfProvider p w)
        else s._modelOptions := by
  simp only [setSettingOfProvider, featureNames, List.foldl_cons, List.foldl_nil, selectionFixup_eq]
  split_ifs <;> split <;> simp

theorem setSettingOfProvider_events (pn : List ProviderName)
    (persist : VoidSettingsState → Except String Unit) (s : VoidSettingsState)
    (p : ProviderName) (w : SettingWrite) :
    ((setSettingOfProvider pn persist s p w).error = none →
      (setSettingOfProvider pn persist s p w).events = [EventProp.settingsOfProvider]
      ∧ (setSettingOfProvider pn persist s p w).persisted
          = [(setSettingOfProvider pn persist s p w).state])
    ∧ ((setSettingOfProvider pn persist s p w).error ≠ none →
      (setSettingOfProvider pn persist s p w).events = []
      ∧ (setSettingOfProvider pn persist s p w).persisted = []) := by
  simp only [setSettingOfProvider]
  split_ifs <;> split <;> simp

theorem getSetting_write_name (ps : ProviderSettings) (w : SettingWrite) :
    (ps.write w).getSetting w.name = w.value := by
  cases w <;> simp [ProviderSettings.write, ProviderSettings.getSetting, SettingWrite.name,
    SettingWrite.value]

theorem getSetting_write_of_ne (ps : ProviderSettings) (w : SettingWrite) (n : SettingName)
    (h : n ≠ w.name) : (ps.write w).getSetting n = ps.getSetting n := by
  cases w <;> cases n <;>
    simp_all [ProviderSettings.write, ProviderSettings.getSetting, SettingWrite.name]

theorem findIndexOpt_eq_none_iff (p : α → Bool) (l : List α) :
    findIndexOpt p l = none ↔ ∀ a ∈ l, p a = false := by
  induction l with
  | nil => simp [findIndexOpt]
  | cons a as ih =>
      by_cases h : p a <;> simp [findIndexOpt, h, ih]

theorem findIndexOpt_take_drop (p : α → Bool) (l : List α) (i : Nat)
    (h : findIndexOpt p l = some i) :
    l.take i ++ l.drop (i + 1) = l.eraseP p := by
  induction l generalizing i with
  | nil => simp [findIndexOpt] at h
  | cons a as ih =>
      by_cases hp : p a
      · simp [findIndexOpt, hp] at h
        subst h
        simp [List.eraseP_cons, hp]
      · simp [findIndexOpt, hp] at h
        rcases h with ⟨j, hj, rfl⟩
        simp [List.eraseP_cons, hp, ih j hj]

theorem findIndexOpt_drop_head (p : α → Bool) (l : List α) (i : Nat)
    (h : findIndexOpt p l = some i) :
    ∃ a rest, l.drop i = a :: rest ∧ p a = true := by
  induction l generalizing i with
  | nil => simp [findIndexOpt] at h
  | cons a as ih =>
      by_cases hp : p a
      · simp [findIndexOpt, hp] at h
        subst h
        exact ⟨a, as, rfl, hp⟩
      · simp [findIndexOpt, hp] at h
        rcases h with ⟨j, hj, rfl⟩
        rcases ih j hj with ⟨b, rest, hd, hb⟩
        exact ⟨b, rest, by simpa using hd, hb⟩

/-- C3: after `setSettingOfProvider(providerName, settingName, newVal)` a read
of `state.settingsOfProvider[providerName][settingName]` returns exactly
`newVal`, every other provider's settings object is unchanged, and every other
setting of the same provider is unchanged. -/
theorem C3_set_setting_readback_and_frame (pn : List ProviderName)
    (persist : VoidSettingsState → Except String Unit) (s : VoidSettingsState)
    (p : ProviderName) (w : SettingWrite) :
    ((setSettingOfProvider pn persist s p w).state.settingsOfProvider p).getSetting w.name
        = w.value
    ∧ (∀ q : ProviderName, q ≠ p →
        (setSettingOfProvider pn persist s p w).state.settingsOfProvider q
          = s.settingsOfProvider q)
    ∧ (∀ n : SettingName, n ≠ w.name →
        ((setSettingOfProvider pn persist s p w).state.settingsOfProvider p).getSetting n
          = (s.settingsOfProvider p).getSetting n) := by
  rw [setSettingOfProvider_settings]
  refine ⟨?_, ?_, ?_⟩
  · simp [updateProvider, getSetting_write_name]
  · intro q hq
    simp [updateProvider, hq]
  · intro n hn
    simp [updateProvider, getSetting_write_of_ne _ _ _ hn]

/-- Witness for C3 at a concrete call: writing an api key for `openai` reads
back, leaves `anthropic` untouched, and leaves `openai`'s model list
untouched. -/
theorem C3_set_setting_readback_and_frame_witness :
    ((setSettingOfProvider egProviderNames persistOk egState "openai"
        (SettingWrite.other "apiKey" "sk-123")).state.settingsOfProvider "openai").getSetting
        (SettingWrite.other "apiKey" "sk-123").name = (SettingWrite.other "apiKey" "sk-123").value
    ∧ (setSettingOfProvider egProviderNames persistOk egState "openai"
        (SettingWrite.other "apiKey" "sk-123")).state.settingsOfProvider "anthropic"
        = egState.settingsOfProvider "anthropic"
    ∧ ((setSettingOfProvider egProviderNames persistOk egState "openai"
        (SettingWrite.other "apiKey" "sk-123")).state.settingsOfProvider "openai").getSetting
        SettingName.models = (egState.settingsOfProvider "openai").getSetting SettingName.models := by
  refine ⟨(C3_set_setting_readback_and_frame egProviderNames persistOk egState "openai"
      (SettingWrite.other "apiKey" "sk-123")).1,
    (C3_set_setting_readback_and_frame egProviderNames persistOk egState "openai"
      (SettingWrite.other "apiKey" "sk-123")).2.1 "anthropic" (by decide),
    (C3_set_setting_readback_and_frame egProviderNames persistOk egState "openai"
      (SettingWrite.other "apiKey" "sk-123")).2.2 SettingName.models (by decide)⟩

/-- C8: with no persisted record the initial read resolves, without error, to
the default settings document: the (deep-cloned) provider and feature-flag
defaults, and a `null` model selection for every feature. -/
theorem C8_first_run_defaults (pn : List ProviderName)
    (dsp : ProviderName → ProviderSettings) (dff : FeatureFlagName → Bool)
    (decrypt : String → Except String String)
    (parse : String → Except String VoidSettingsState) :
    _readState pn dsp dff none decrypt parse = Except.ok (defaultState pn dsp dff)
    ∧ (∀ f : FeatureName, (defaultState pn dsp dff).modelSelectionOfFeature.get f = none)
    ∧ (defaultState pn dsp dff).settingsOfProvider = dsp
    ∧ (defaultState pn dsp dff).featureFlagSettings = dff := by
  refine ⟨rfl, ?_, rfl, rfl⟩
  intro f
  cases f <;> rfl

/-- C9: before the bridge's one-time initialization, `useAccessor` throws
while `useSettingsState` returns the (still uninitialized) cached value as a
benign result instead of throwing. -/
theorem C9_pre_init_accessor_throws (A St : Type) :
    useAccessor (initialBridge A St)
        = Except.error "Void useAccessor was called before _registerServices!"
    ∧ useSettingsState (initialBridge A St) = none :=
  ⟨rfl, rfl⟩

/-- C4: for each mutation (`setSettingOfProvider`, `setModelSelectionOfFeature`
without `doNotApplyEffects`, `setFeatureFlag`) the in-memory state is the
fully mutated state no matter how the persist step behaves; on persist
success the snapshot persisted is that very state and exactly one tagged
notification fires, and on persist failure no notification fires and the
state remains the mutated one (no rollback). -/
theorem C4_mutate_before_persist (pn : List ProviderName)
    (persist : VoidSettingsState → Except String Unit) (s : VoidSettingsState)
    (p : ProviderName) (w : SettingWrite) (f : FeatureName) (v : Option ModelSelection)
    (flag : FeatureFlagName) (b : Bool) :
    ((setSettingOfProvider pn persist s p w).state
        = (setSettingOfProvider pn persistOk s p w).state
      ∧ ((setSettingOfProvider pn persist s p w).error = none →
          (setSettingOfProvider pn persist s p w).events = [EventProp.settingsOfProvider]
          ∧ (setSettingOfProvider pn persist s p w).persisted
              = [(setSettingOfProvider pn persist s p w).state])
      ∧ ((setSettingOfProvider pn persist s p w).error ≠ none →
          (setSettingOfProvider pn persist s p w).events = []))
    ∧ ((setModelSelectionOfFeature persist s f v false).state
        = (setModelSelectionOfFeature persistOk s f v false).state
      ∧ ((setModelSelectionOfFeature persist s f v false).error = none →
          (setModelSelectionOfFeature persist s f v false).events
              = [EventProp.modelSelectionOfFeature]
          ∧ (setModelSelectionOfFeature persist s f v false).persisted
              = [(setModelSelectionOfFeature persist s f v false).state])
      ∧ ((setModelSelectionOfFeature persist s f v false).error ≠ none →
          (setModelSelectionOfFeature persist s f v false).events = []))
    ∧ ((setFeatureFlag persist s flag b).state = (setFeatureFlag persistOk s flag b).state
      ∧ ((setFeatureFlag persist s flag b).error = none →
          (setFeatureFlag persist s flag b).events = [EventProp.featureFlagSettings]
          ∧ (setFeatureFlag persist s flag b).persisted
              = [(setFeatureFlag persist s flag b).state])
      ∧ ((setFeatureFlag persist s flag b).error ≠ none →
          (setFeatureFlag persist s flag b).events = [])) := by
  refine ⟨⟨?_, ?_, ?_⟩, ⟨?_, ?_, ?_⟩, ⟨?_, ?_, ?_⟩⟩
  · simp only [setSettingOfProvider, featureNames, List.foldl_cons, List.foldl_nil,
      selectionFixup_eq, persistOk]
    split_ifs <;> split <;> simp
  · exact (setSettingOfProvider_events pn persist s p w).1
  · intro h
    exact ((setSettingOfProvider_events pn persist s p w).2 h).1
  · simp only [setModelSelectionOfFeature, persistOk, Bool.false_eq_true, if_false]
    split <;> simp
  · simp only [setModelSelectionOfFeature, Bool.false_eq_true, if_false]
    split <;> simp
  · simp only [setModelSelectionOfFeature, Bool.false_eq_true, if_false]
    split <;> simp
  · simp only [setFeatureFlag, persistOk]
    split <;> simp
  · simp only [setFeatureFlag]
    split <;> simp
  · simp only [setFeatureFlag]
    split <;> simp

/-- Witness for C4: at a concrete state, with a persist stub that succeeds the
three mutations fire their single tagged event and persist their final state;
with a persist stub that fails they fire nothing yet leave the same mutated
in-memory state. -/
theorem C4_mutate_before_persist_witness :
    ((setSettingOfProvider egProviderNames persistOk egState "openai"
        (SettingWrite._enabled false)).events = [EventProp.settingsOfProvider]
      ∧ (setSettingOfProvider egProviderNames persistFail egState "openai"
          (SettingWrite._enabled false)).events = []
      ∧ (setSettingOfProvider egProviderNames persistFail egState "openai"
          (SettingWrite._enabled false)).state
        = (setSettingOfProvider egProviderNames persistOk egState "openai"
            (SettingWrite._enabled false)).state)
    ∧ ((setModelSelectionOfFeature persistOk egState FeatureName.ctrlL none false).events
          = [EventProp.modelSelectionOfFeature]
      ∧ (setModelSelectionOfFeature persistFail egState FeatureName.ctrlL none false).events = []
      ∧ (setModelSelectionOfFeature persistFail egState FeatureName.ctrlL none false).state
        = (setModelSelectionOfFeature persistOk egState FeatureName.ctrlL none false).state)
    ∧ ((setFeatureFlag persistOk egState "flagX" true).events = [EventProp.featureFlagSettings]
      ∧ (setFeatureFlag persistFail egState "flagX" true).events = []
      ∧ (setFeatureFlag persistFail egState "flagX" true).state
        = (setFeatureFlag persistOk egState "flagX" true).state) := by
  refine ⟨⟨?_, ?_, ?_⟩, ⟨?_, ?_, ?_⟩, ⟨?_, ?_, ?_⟩⟩
  · exact ((C4_mutate_before_persist egProviderNames persistOk egState "openai"
      (SettingWrite._enabled false) FeatureName.ctrlL none "flagX" true).1.2.1 (by decide)).1
  · exact (C4_mutate_before_persist egProviderNames persistFail egState "openai"
      (SettingWrite._enabled false) FeatureName.ctrlL none "flagX" true).1.2.2 (by decide)
  · exact (C4_mutate_before_persist egProviderNames persistFail egState "openai"
      (SettingWrite._enabled false) FeatureName.ctrlL none "flagX" true).1.1
  · exact ((C4_mutate_before_persist egProviderNames persistOk egState "openai"
      (SettingWrite._enabled false) FeatureName.ctrlL none "flagX" true).2.1.2.1 (by decide)).1
  · exact (C4_mutate_before_persist egProviderNames persistFail egState "openai"
      (SettingWrite._enabled false) FeatureName.ctrlL none "flagX" true).2.1.2.2 (by decide)
  · exact (C4_mutate_before_persist egProviderNames persistFail egState "openai"
      (SettingWrite._enabled false) FeatureName.ctrlL none "flagX" true).2.1.1
  · exact ((C4_mutate_before_persist egProviderNames persistOk egState "openai"
      (SettingWrite._enabled false) FeatureName.ctrlL none "flagX" true).2.2.2.1 (by decide)).1
  · exact (C4_mutate_before_persist egProviderNames persistFail egState "openai"
      (SettingWrite._enabled false) FeatureName.ctrlL none "flagX" true).2.2.2.2 (by decide)
  · exact (C4_mutate_before_persist egProviderNames persistFail egState "openai"
      (SettingWrite._enabled false) FeatureName.ctrlL none "flagX" true).2.2.1

/-- C1: when `setSettingOfProvider` is called with setting `models` or
`_enabled`, every feature whose selected model is no longer present in the
recomputed option list is reassigned to the first option of the new list (or
`null` when it is empty); the reassignments are part of the state persisted by
the same call, and the successful call fires exactly one notification, tagged
`'settingsOfProvider'`. -/
theorem C1_invalid_selection_reassigned (pn : List ProviderName)
    (persist : VoidSettingsState → Except String Unit) (s : VoidSettingsState)
    (p : ProviderName) (w : SettingWrite)
    (hw : w.name = SettingName.models ∨ w.name = SettingName._enabled) :
    (∀ (f : FeatureName) (sel : ModelSelection),
        s.modelSelectionOfFeature.get f = some sel →
        (_computeModelOptions pn (updateProvider s.settingsOfProvider p w)).any
            (fun m => modelSelectionsEqual m.value sel) = false →
        (setSettingOfProvider pn persist s p w).state.modelSelectionOfFeature.get f
          = ((_computeModelOptions pn (updateProvider s.settingsOfProvider p w)).head?.map
              fun m => m.value))
    ∧ ((setSettingOfProvider pn persist s p w).error = none →
        (setSettingOfProvider pn persist s p w).events = [EventProp.settingsOfProvider]
        ∧ (setSettingOfProvider pn persist s p w).persisted
            = [(setSettingOfProvider pn persist s p w).state]) := by
  constructor
  · intro f sel hsel hmiss
    rw [setSettingOfProvider_state_changed pn persist s p w hw]
    cases f <;> simp_all [ModelSelectionOfFeature.get, fixSelection]
  · exact (setSettingOfProvider_events pn persist s p w).1

/-- Witness for C1: disabling `openai` invalidates the `Ctrl+K` selection
(`openai/modelA`), which becomes the head of the recomputed option list, while
the call fires only the `'settingsOfProvider'` event. -/
theorem C1_invalid_selection_reassigned_witness :
    ((setSettingOfProvider egProviderNames persistOk egState "openai"
        (SettingWrite._enabled false)).state.modelSelectionOfFeature.get FeatureName.ctrlK
      = ((_computeModelOptions egProviderNames
          (updateProvider egState.settingsOfProvider "openai"
            (SettingWrite._enabled false))).head?.map fun m => m.value))
    ∧ (setSettingOfProvider egProviderNames persistOk egState "openai"
        (SettingWrite._enabled false)).events = [EventProp.settingsOfProvider] := by
  refine ⟨(C1_invalid_selection_reassigned egProviderNames persistOk egState "openai"
      (SettingWrite._enabled false) (by decide)).1 FeatureName.ctrlK
      { providerName := "openai", modelName := "modelA" } (by decide) (by decide),
    ((C1_invalid_selection_reassigned egProviderNames persistOk egState "openai"
      (SettingWrite._enabled false) (by decide)).2 (by decide)).1⟩

/-- C10: after a `models` or `_enabled` change whose recomputed option list is
non-empty, a feature whose selection was `null` is auto-assigned the first
option: a `null` selection never survives such a change. -/
theorem C10_null_selection_filled (pn : List ProviderName)
    (persist : VoidSettingsState → Except String Unit) (s : VoidSettingsState)
    (p : ProviderName) (w : SettingWrite)
    (hw : w.name = SettingName.models ∨ w.name = SettingName._enabled)
    (f : FeatureName) (hnull : s.modelSelectionOfFeature.get f = none)
    (hne : _computeModelOptions pn (updateProvider s.settingsOfProvider p w) ≠ []) :
    (setSettingOfProvider pn persist s p w).state.modelSelectionOfFeature.get f
      = ((_computeModelOptions pn (updateProvider s.settingsOfProvider p w)).head?.map
          fun m => m.value)
    ∧ (setSettingOfProvider pn persist s p w).state.modelSelectionOfFeature.get f ≠ none := by
  have hmain : (setSettingOfProvider pn persist s p w).state.modelSelectionOfFeature.get f
      = ((_computeModelOptions pn (updateProvider s.settingsOfProvider p w)).head?.map
          fun m => m.value) := by
    rw [setSettingOfProvider_state_changed pn persist s p w hw]
    cases f <;> simp_all [ModelSelectionOfFeature.get, fixSelection]
  refine ⟨hmain, ?_⟩
  rw [hmain]
  cases hopts : _computeModelOptions pn (updateProvider s.settingsOfProvider p w) with
  | nil => exact absurd hopts hne
  | cons m rest => simp

/-- Witness for C10: disabling `openai` leaves a non-empty option list, and
the previously `null` `Ctrl+L` selection is auto-assigned its first option. -/
theorem C10_null_selection_filled_witness :
    (setSettingOfProvider egProviderNames persistOk egState "openai"
        (SettingWrite._enabled false)).state.modelSelectionOfFeature.get FeatureName.ctrlL
      = ((_computeModelOptions egProviderNames
          (updateProvider egState.settingsOfProvider "openai"
            (SettingWrite._enabled false))).head?.map fun m => m.value)
    ∧ (setSettingOfProvider egProviderNames persistOk egState "openai"
        (SettingWrite._enabled false)).state.modelSelectionOfFeature.get FeatureName.ctrlL
      ≠ none :=
  C10_null_selection_filled egProviderNames persistOk egState "openai"
    (SettingWrite._enabled false) (by decide) FeatureName.ctrlL (by decide) (by decide)

/-- C2: `_modelOptions` is exactly the spec's flattened list (enabled
providers' non-hidden models, provider order then model order); disabling a
provider removes precisely its entries from the derived list, and re-enabling
an initially enabled provider restores the list derived from the original
settings. -/
theorem C2_model_options_flattening (pn : List ProviderName)
    (sop : ProviderName → ProviderSettings)
    (persist : VoidSettingsState → Except String Unit) (s : VoidSettingsState)
    (p : ProviderName) :
    _computeModelOptions pn sop = modelOptionsSpec pn sop
    ∧ (setSettingOfProvider pn persist s p (SettingWrite._enabled false)).state._modelOptions
        = (_computeModelOptions pn s.settingsOfProvider).filter
            (fun o => !(o.value.providerName == p))
    ∧ ((s.settingsOfProvider p)._enabled = true →
        (setSettingOfProvider pn persist
          (setSettingOfProvider pn persist s p (SettingWrite._enabled false)).state p
          (SettingWrite._enabled true)).state._modelOptions
          = _computeModelOptions pn s.settingsOfProvider) := by
  refine ⟨computeModelOptions_eq_spec pn sop, ?_, ?_⟩
  · have hcond : (SettingWrite._enabled false).name = SettingName.models ∨
        (SettingWrite._enabled false).name = SettingName._enabled := Or.inr rfl
    rw [setSettingOfProvider_modelOptions, if_pos hcond]
    rw [computeModelOptions_eq_spec, spec_disable_filter, ← computeModelOptions_eq_spec]
  · intro h
    have hcond : (SettingWrite._enabled true).name = SettingName.models ∨
        (SettingWrite._enabled true).name = SettingName._enabled := Or.inr rfl
    rw [setSettingOfProvider_modelOptions, if_pos hcond]
    rw [setSettingOfProvider_settings]
    rw [updateProvider_restore s.settingsOfProvider p h]

/-- Witness for C2 at the sample state: disabling and re-enabling `openai`
filters out and then restores its two options. -/
theorem C2_model_options_flattening_witness :
    _computeModelOptions egProviderNames egSettings = modelOptionsSpec egProviderNames egSettings
    ∧ (setSettingOfProvider egProviderNames persistOk egState "openai"
        (SettingWrite._enabled false)).state._modelOptions
        = (_computeModelOptions egProviderNames egState.settingsOfProvider).filter
            (fun o => !(o.value.providerName == "openai"))
    ∧ (setSettingOfProvider egProviderNames persistOk
        (setSettingOfProvider egProviderNames persistOk egState "openai"
          (SettingWrite._enabled false)).state "openai"
        (SettingWrite._enabled true)).state._modelOptions
        = _computeModelOptions egProviderNames egState.settingsOfProvider := by
  refine ⟨(C2_model_options_flattening egProviderNames egSettings persistOk egState "openai").1,
    (C2_model_options_flattening egProviderNames egSettings persistOk egState "openai").2.1,
    (C2_model_options_flattening egProviderNames egSettings persistOk egState "openai").2.2
      (by decide)⟩

theorem eraseP_eq_filter_of_unique (models : List VoidModelInfo) (n : String)
    (hu : modelNamesUnique models) :
    models.eraseP (fun m => m.modelName == n)
      = models.filter (fun m => !(m.modelName == n)) := by
  induction models with
  | nil => simp
  | cons m rest ih =>
      simp only [modelNamesUnique, List.map_cons, List.nodup_cons] at hu
      by_cases h : m.modelName = n
      · subst h
        have hpred : ∀ x ∈ rest, (!(x.modelName == m.modelName)) = true := by
          intro x hx
          have hne : x.modelName ≠ m.modelName := by
            intro hEq
            exact hu.1 (hEq ▸ List.mem_map_of_mem (fun m => m.modelName) hx)
          simp [hne]
        simp [List.eraseP_cons, List.filter_cons, List.filter_eq_self.mpr hpred]
      · have hb : (m.modelName == n) = false := by simp [h]
        simp [List.eraseP_cons, hb, List.filter_cons, ih hu.2]

/-- C6: `deleteModel` returns `false` and changes nothing when no model of
that name exists; otherwise it returns `true` and removes exactly the first
entry of that name (under the per-provider uniqueness invariant, exactly the
entry of that name), keeping all other entries in their original order. -/
theorem C6_delete_model (pn : List ProviderName)
    (persist : VoidSettingsState → Except String Unit) (s : VoidSettingsState)
    (p : ProviderName) (n : String) :
    ((∀ m ∈ (s.settingsOfProvider p).models, m.modelName ≠ n) →
        (deleteModel pn persist s p n).1 = false
        ∧ (deleteModel pn persist s p n).2.state = s)
    ∧ ((∃ m ∈ (s.settingsOfProvider p).models, m.modelName = n) →
        (deleteModel pn persist s p n).1 = true
        ∧ ((deleteModel pn persist s p n).2.state.settingsOfProvider p).models
            = (s.settingsOfProvider p).models.eraseP (fun m => m.modelName == n)
        ∧ (modelNamesUnique (s.settingsOfProvider p).models →
            ((deleteModel pn persist s p n).2.state.settingsOfProvider p).models
              = (s.settingsOfProvider p).models.filter (fun m => !(m.modelName == n)))) := by
  constructor
  · intro habs
    have hfi : findIndexOpt (fun m => m.modelName == n) (s.settingsOfProvider p).models = none := by
      rw [findIndexOpt_eq_none_iff]
      intro m hm
      simp [habs m hm]
    constructor
    · simp [deleteModel, hfi]
    · simp [deleteModel, hfi]
  · intro hex
    cases hfi : findIndexOpt (fun m => m.modelName == n) (s.settingsOfProvider p).models with
    | none =>
        rcases hex with ⟨m, hm, hname⟩
        have := (findIndexOpt_eq_none_iff _ _).mp hfi m hm
        simp [hname] at this
    | some i =>
        refine ⟨by simp [deleteModel, hfi], ?_, ?_⟩
        · have hset : ((deleteModel pn persist s p n).2.state.settingsOfProvider p).models
              = (s.settingsOfProvider p).models.take i
                  ++ (s.settingsOfProvider p).models.drop (i + 1) := by
            simp only [deleteModel, hfi]
            rw [setSettingOfProvider_settings]
            simp [updateProvider, ProviderSettings.write]
          rw [hset, findIndexOpt_take_drop _ _ _ hfi]
        · intro hu
          have hset : ((deleteModel pn persist s p n).2.state.settingsOfProvider p).models
              = (s.settingsOfProvider p).models.take i
                  ++ (s.settingsOfProvider p).models.drop (i + 1) := by
            simp only [deleteModel, hfi]
            rw [setSettingOfProvider_settings]
            simp [updateProvider, ProviderSettings.write]
          rw [hset, findIndexOpt_take_drop _ _ _ hfi, eraseP_eq_filter_of_unique _ _ hu]

/-- Witness for C6: deleting the absent `modelX` is a no-op returning `false`;
deleting `modelB` returns `true` and leaves exactly `modelA`. -/
theorem C6_delete_model_witness :
    ((deleteModel egProviderNames persistOk egState "openai" "modelX").1 = false
      ∧ (deleteModel egProviderNames persistOk egState "openai" "modelX").2.state = egState)
    ∧ ((deleteModel egProviderNames persistOk egState "openai" "modelB").1 = true
      ∧ ((deleteModel egProviderNames persistOk egState "openai" "modelB").2.state.settingsOfProvider
            "openai").models
          = (egState.settingsOfProvider "openai").models.eraseP (fun m => m.modelName == "modelB")
      ∧ ((deleteModel egProviderNames persistOk egState "openai" "modelB").2.state.settingsOfProvider
            "openai").models
          = (egState.settingsOfProvider "openai").models.filter
              (fun m => !(m.modelName == "modelB"))) := by
  refine ⟨(C6_delete_model egProviderNames persistOk egState "openai" "modelX").1 (by decide), ?_⟩
  · have h := (C6_delete_model egProviderNames persistOk egState "openai" "modelB").2
      ⟨{ modelName := "modelB", isDefault := true, isHidden := false }, by decide, rfl⟩
    exact ⟨h.1, h.2.1, h.2.2 (by decide)⟩

theorem addModel_noop (pn : List ProviderName)
    (persist : VoidSettingsState → Except String Unit) (s : VoidSettingsState)
    (p : ProviderName) (n : String) (j : Nat)
    (h : findIndexOpt (fun m => m.modelName == n) (s.settingsOfProvider p).models = some j) :
    (addModel pn persist s p n).state = s := by
  simp [addModel, h]

/-- C7: `addModel` is idempotent (the second call with the same name is a
no-op), and on a fresh name it appends exactly one
`{modelName, isDefault: false, isHidden: false}` entry after the prior
entries. -/
theorem C7_add_model_idempotent (pn : List ProviderName)
    (persist : VoidSettingsState → Except String Unit) (s : VoidSettingsState)
    (p : ProviderName) (n : String) :
    (addModel pn persist (addModel pn persist s p n).state p n).state
        = (addModel pn persist s p n).state
    ∧ ((∀ m ∈ (s.settingsOfProvider p).models, m.modelName ≠ n) →
        ((addModel pn persist s p n).state.settingsOfProvider p).models
          = (s.settingsOfProvider p).models
              ++ [{ modelName := n, isDefault := false, isHidden := false }]) := by
  have happend : ∀ hfi : findIndexOpt (fun m => m.modelName == n)
        (s.settingsOfProvider p).models = none,
      ((addModel pn persist s p n).state.settingsOfProvider p).models
        = (s.settingsOfProvider p).models
            ++ [{ modelName := n, isDefault := false, isHidden := false }] := by
    intro hfi
    simp only [addModel, hfi]
    rw [setSettingOfProvider_settings]
    simp [updateProvider, ProviderSettings.write]
  constructor
  · cases hfi : findIndexOpt (fun m => m.modelName == n) (s.settingsOfProvider p).models with
    | some i =>
        have hstate : (addModel pn persist s p n).state = s :=
          addModel_noop pn persist s p n i hfi
        rw [hstate, hstate]
    | none =>
        have hmem : { modelName := n, isDefault := false, isHidden := false, isAutodetected := none }
            ∈ ((addModel pn persist s p n).state.settingsOfProvider p).models := by
          rw [happend hfi]
          simp
        cases hfi2 : findIndexOpt (fun m => m.modelName == n)
            ((addModel pn persist s p n).state.settingsOfProvider p).models with
        | some j => exact addModel_noop pn persist _ p n j hfi2
        | none =>
            have := (findIndexOpt_eq_none_iff _ _).mp hfi2 _ hmem
            simp at this
  · intro habs
    have hfi : findIndexOpt (fun m => m.modelName == n) (s.settingsOfProvider p).models = none := by
      rw [findIndexOpt_eq_none_iff]
      intro m hm
      simp [habs m hm]
    exact happend hfi

/-- Witness for C7: the spec's scenario, adding the fresh `modelX` to `openai`
appends exactly one entry, and adding it again is a no-op. -/
theorem C7_add_model_idempotent_witness :
    (addModel egProviderNames persistOk
        (addModel egProviderNames persistOk egState "openai" "modelX").state "openai" "modelX").state
      = (addModel egProviderNames persistOk egState "openai" "modelX").state
    ∧ ((addModel egProviderNames persistOk egState "openai" "modelX").state.settingsOfProvider
          "openai").models
        = (egState.settingsOfProvider "openai").models
            ++ [{ modelName := "modelX", isDefault := false, isHidden := false }] :=
  ⟨(C7_add_model_idempotent egProviderNames persistOk egState "openai" "modelX").1,
    (C7_add_model_idempotent egProviderNames persistOk egState "openai" "modelX").2 (by decide)⟩


theorem egState_unique : StateUnique egState := by
  intro q
  simp only [egState, egSettings]
  split_ifs <;> decide

/-- C5 fails as stated: `setSettingOfProvider` accepts an arbitrary `models`
value, so writing a list with a duplicated name breaks per-provider
uniqueness even from a state that satisfies it. -/
theorem C5_uniqueness_counterexample :
    modelNamesUnique (((defaultState egProviderNames egSettings (fun _ => false)).settingsOfProvider
        "openai").models)
    ∧ ¬ modelNamesUnique (((setSettingOfProvider egProviderNames persistOk
        (defaultState egProviderNames egSettings (fun _ => false)) "openai"
        (SettingWrite.models
          [{ modelName := "modelA", isDefault := false, isHidden := false },
           { modelName := "modelA", isDefault := false, isHidden := false }])).state.settingsOfProvider
        "openai").models) := by
  decide

/-- C5 (amended): per-provider model-name uniqueness is preserved by
`addModel`, `deleteModel` and `toggleModelHidden`; by `setSettingOfProvider`
for `_enabled` and scalar settings unconditionally and for `models` writes
whose supplied list has unique names; and by `setDefaultModels` when the new
default names are duplicate-free and collide with no existing non-default
model name. -/
theorem C5_uniqueness_amended (pn : List ProviderName)
    (persist : VoidSettingsState → Except String Unit) (s : VoidSettingsState)
    (p : ProviderName) (n : String) (ms : List VoidModelInfo) (b : Bool)
    (key val : String) (names : List String) :
    (StateUnique s → StateUnique (addModel pn persist s p n).state)
    ∧ (StateUnique s → StateUnique (deleteModel pn persist s p n).2.state)
    ∧ (StateUnique s → StateUnique (toggleModelHidden pn persist s p n).state)
    ∧ (StateUnique s → modelNamesUnique ms →
        StateUnique (setSettingOfProvider pn persist s p (SettingWrite.models ms)).state)
    ∧ (StateUnique s →
        StateUnique (setSettingOfProvider pn persist s p (SettingWrite._enabled b)).state)
    ∧ (StateUnique s →
        StateUnique (setSettingOfProvider pn persist s p (SettingWrite.other key val)).state)
    ∧ (StateUnique s → names.Nodup →
        (∀ nm ∈ names, ∀ m ∈ (s.settingsOfProvider p).models,
            m.isDefault = false → m.modelName ≠ nm) →
        StateUnique (setDefaultModels pn persist s p names).state) := by
  have key_lemma : ∀ ms' : List VoidModelInfo, modelNamesUnique ms' → StateUnique s →
      StateUnique (setSettingOfProvider pn persist s p (SettingWrite.models ms')).state := by
    intro ms' hms hU q
    rw [setSettingOfProvider_settings]
    by_cases hq : q = p
    · subst hq
      simpa [updateProvider, ProviderSettings.write] using hms
    · simpa [updateProvider, hq] using hU q
  refine ⟨?_, ?_, ?_, fun hU hms => key_lemma ms hms hU, ?_, ?_, ?_⟩
  · intro hU
    cases hfi : findIndexOpt (fun m => m.modelName == n) (s.settingsOfProvider p).models with
    | some i => rw [addModel_noop pn persist s p n i hfi]; exact hU
    | none =>
        have hfresh := (findIndexOpt_eq_none_iff _ _).mp hfi
        simp only [addModel, hfi]
        refine key_lemma _ ?_ hU
        have hup : modelNamesUnique (s.settingsOfProvider p).models := hU p
        simp only [modelNamesUnique, List.map_append, List.nodup_append] at *
        refine ⟨hup, by simp, ?_⟩
        intro a ha
        rcases List.mem_map.mp ha with ⟨m, hm, rfl⟩
        have := hfresh m hm
        simp_all
  · intro hU
    cases hfi : findIndexOpt (fun m => m.modelName == n) (s.settingsOfProvider p).models with
    | none => simpa [deleteModel, hfi] using hU
    | some i =>
        simp only [deleteModel, hfi]
        refine key_lemma _ ?_ hU
        rw [findIndexOpt_take_drop _ _ _ hfi]
        exact ((List.eraseP_sublist _).map _).nodup (hU p)
  · intro hU
    cases hfi : findIndexOpt (fun m => m.modelName == n) (s.settingsOfProvider p).models with
    | none => simpa [toggleModelHidden, hfi] using hU
    | some i =>
        cases hd : (s.settingsOfProvider p).models.drop i with
        | nil => simpa [toggleModelHidden, hfi, hd] using hU
        | cons mi rest =>
            simp only [toggleModelHidden, hfi, hd]
            refine key_lemma _ ?_ hU
            have hU' := hU p
            have hsplit : (s.settingsOfProvider p).models
                = (s.settingsOfProvider p).models.take i ++ mi :: rest := by
              rw [← hd, List.take_append_drop]
            rw [hsplit] at hU'
            simpa [modelNamesUnique, List.map_append] using hU'
  · intro hU q
    rw [setSettingOfProvider_settings]
    by_cases hq : q = p
    · subst hq
      simpa [updateProvider, ProviderSettings.write, modelNamesUnique] using hU q
    · simpa [updateProvider, hq] using hU q
  · intro hU q
    rw [setSettingOfProvider_settings]
    by_cases hq : q = p
    · subst hq
      simpa [updateProvider, ProviderSettings.write, modelNamesUnique] using hU q
    · simpa [updateProvider, hq] using hU q
  · intro hU hnd hdisj
    simp only [setDefaultModels]
    refine key_lemma _ ?_ hU
    simp only [modelNamesUnique, List.map_append, List.nodup_append]
    refine ⟨?_, ?_, ?_⟩
    · simpa [modelInfoOfDefaultNames, List.map_map, Function.comp_def] using hnd
    · exact (((List.filter_sublist _).map _).nodup (hU p))
    · intro a ha hb
      rcases List.mem_map.mp ha with ⟨m1, hm1, rfl⟩
      rcases List.mem_map.mp hb with ⟨m2, hm2, hname⟩
      rcases List.mem_filter.mp hm2 with ⟨hm2mem, hm2nd⟩
      rcases List.mem_map.mp hm1 with ⟨nm, hnm, rfl⟩
      refine hdisj _ hnm m2 hm2mem ?_ ?_
      · simpa using hm2nd
      · simpa [modelInfoOfDefaultNames] using hname

/-- Witness for the amended C5 at the sample state: each mutation preserves
per-provider uniqueness under the stated side conditions. -/
theorem C5_uniqueness_amended_witness :
    StateUnique (addModel egProviderNames persistOk egState "openai" "modelX").state
    ∧ StateUnique (deleteModel egProviderNames persistOk egState "openai" "modelB").2.state
    ∧ StateUnique (toggleModelHidden egProviderNames persistOk egState "openai" "modelA").state
    ∧ StateUnique (setSettingOfProvider egProviderNames persistOk egState "openai"
        (SettingWrite.models
          [{ modelName := "solo", isDefault := false, isHidden := false }])).state
    ∧ StateUnique (setSettingOfProvider egProviderNames persistOk egState "openai"
        (SettingWrite._enabled false)).state
    ∧ StateUnique (setSettingOfProvider egProviderNames persistOk egState "openai"
        (SettingWrite.other "apiKey" "k")).state
    ∧ StateUnique (setDefaultModels egProviderNames persistOk egState "openai"
        ["modelA", "modelD"]).state := by
  refine ⟨(C5_uniqueness_amended egProviderNames persistOk egState "openai" "modelX"
      [{ modelName := "solo", isDefault := false, isHidden := false }] false "apiKey" "k"
      ["modelA", "modelD"]).1 egState_unique,
    (C5_uniqueness_amended egProviderNames persistOk egState "openai" "modelB"
      [{ modelName := "solo", isDefault := false, isHidden := false }] false "apiKey" "k"
      ["modelA", "modelD"]).2.1 egState_unique,
    (C5_uniqueness_amended egProviderNames persistOk egState "openai" "modelA"
      [{ modelName := "solo", isDefault := false, isHidden := false }] false "apiKey" "k"
      ["modelA", "modelD"]).2.2.1 egState_unique,
    (C5_uniqueness_amended egProviderNames persistOk egState "openai" "modelX"
      [{ modelName := "solo", isDefault := false, isHidden := false }] false "apiKey" "k"
      ["modelA", "modelD"]).2.2.2.1 egState_unique (by decide),
    (C5_uniqueness_amended egProviderNames persistOk egState "openai" "modelX"
      [{ modelName := "solo", isDefault := false, isHidden := false }] false "apiKey" "k"
      ["modelA", "modelD"]).2.2.2.2.1 egState_unique,
    (C5_uniqueness_amended egProviderNames persistOk egState "openai" "modelX"
      [{ modelName := "solo", isDefault := false, isHidden := false }] false "apiKey" "k"
      ["modelA", "modelD"]).2.2.2.2.2.1 egState_unique,
    (C5_uniqueness_amended egProviderNames persistOk egState "openai" "modelX"
      [{ modelName := "solo", isDefault := false, isHidden := false }] false "apiKey" "k"
      ["modelA", "modelD"]).2.2.2.2.2.2 egState_unique (by decide) (by decide)⟩
